import Mathlib

/-!
Verification development for `alarmtify.py`, a single-file Spotify alarm
clock.  Python strings are embedded as `List Char`, instants as seconds
since the epoch (`Nat`), and the external `spotipy` auth manager / client
as explicit state or call oracles passed to each function.
-/

namespace Alarmtify

/-! ### Python primitives used by the source -/

/-- ASCII whitespace accepted by Python `int()` around a numeric literal
(the model restricts the unicode whitespace of Python to the ASCII ones). -/
def isPyWS (c : Char) : Bool :=
  c = ' ' || c = '\t' || c = '\n' || c = '\r' || c.toNat = 11 || c.toNat = 12

/-- Strip leading and trailing whitespace, as Python `int()` does. -/
def stripWS (l : List Char) : List Char :=
  ((l.dropWhile isPyWS).reverse.dropWhile isPyWS).reverse

/-- Digit-sequence body of a Python integer literal: one or more ASCII
digits with single underscores allowed between digits; accumulates the
value in base 10. -/
def pyDigitsAux (acc : Nat) : List Char → Option Nat
  | [] => some acc
  | '_' :: c :: rest =>
      if c.isDigit then pyDigitsAux (acc * 10 + (c.toNat - 48)) rest else none
  | c :: rest =>
      if c.isDigit then pyDigitsAux (acc * 10 + (c.toNat - 48)) rest else none

/-- Nonempty digit sequence (underscores only between digits). -/
def pyDigits : List Char → Option Nat
  | [] => none
  | '_' :: _ => none
  | c :: rest =>
      if c.isDigit then pyDigitsAux (c.toNat - 48) rest else none

/-- Model of Python `int(s)` on ASCII strings: optional surrounding
whitespace, an optional single sign, then a digit sequence.  `none`
models the `ValueError` Python raises on any other shape. -/
def pyInt (l : List Char) : Option Int :=
  match stripWS l with
  | '+' :: rest => (pyDigits rest).map Int.ofNat
  | '-' :: rest => (pyDigits rest).map (fun n => -(n : Int))
  | rest => (pyDigits rest).map Int.ofNat

/-- Model of Python `int(s)` on a Lean `String`. -/
def pyIntStr (s : String) : Option Int := pyInt s.toList

/-- Model of Python `str.split(sep)` for a one-character separator:
splits at every occurrence, keeping empty components. -/
def pySplit (sep : Char) : List Char → List (List Char)
  | [] => [[]]
  | c :: rest =>
      if c = sep then [] :: pySplit sep rest
      else
        match pySplit sep rest with
        | h :: t => (c :: h) :: t
        | [] => [[c]]

/-! ### `parse_target_time` (src/alarmtify.py lines 114-123)

`hour, minute = map(int, time_str.split(":"))` followed by the range
check `0 <= hour < 24 and 0 <= minute < 60`; every failure (unpacking a
list whose length is not 2, a component `int()` rejects, or the range
check) raises `ValueError`, modelled as `none` (= `InvalidTimeFormat`). -/

def parse_target_time (s : List Char) : Option (Nat × Nat) :=
  match (pySplit ':' s).mapM pyInt with
  | some [h, m] =>
      if 0 ≤ h ∧ h < 24 ∧ 0 ≤ m ∧ m < 60 then some (h.toNat, m.toNat) else none
  | _ => none

/-- The canonical strict two-digit rendering of an in-range time, used to
state the completeness direction of parsing. -/
def digitChar (n : Nat) : Char := Char.ofNat (48 + n)

/-- `"HH:MM"` with both components zero-padded to two digits. -/
def toHHMM (h m : Nat) : List Char :=
  [digitChar (h / 10), digitChar (h % 10), ':', digitChar (m / 10), digitChar (m % 10)]

/-! ### Scheduler (src/alarmtify.py lines 133-143)

Instants are seconds since the epoch.  `datetime.datetime.combine
(now.date(), target_time)` is `(now / 86400) * 86400 + target`, and the
roll-forward adds one day exactly when that instant is `<= now`. -/

def secPerDay : Nat := 86400

/-- The `target_datetime` that `wait_until_target_time` sleeps until:
the current date combined with the target time-of-day, rolled to the next
day when already past or exactly now. -/
def next_occurrence (target now : Nat) : Nat :=
  let td := (now / secPerDay) * secPerDay + target
  if td ≤ now then td + secPerDay else td

/-! ### `get_token_config` (src/alarmtify.py lines 35-45)

The configuration is a JSON object, embedded as a lookup function
`String → Option String`; the Python truthiness test `not token_config[k]`
holds for a missing key (`None`) and for an empty string.  The function
performs no network call: it only reads the mapping. -/

def TOKEN_CONFIG_KEYS : List String :=
  ["username", "client_id", "client_secret", "redirect_uri"]

def SPOTIFY_SCOPE : String :=
  "user-read-playback-state user-modify-playback-state"

/-- Python falsiness of `config.get(k)`. -/
def falsy : Option String → Bool
  | none => true
  | some s => s = ""

/-- `.error ks` models `ValueError("Incomplete token configuration")`
logged with the list `ks` of missing keys; `.ok` carries the validated
mapping extended with the scope entry. -/
def get_token_config (config : String → Option String) :
    Except (List String) (List (String × String)) :=
  let missing_keys := TOKEN_CONFIG_KEYS.filter (fun k => falsy (config k))
  if missing_keys.isEmpty then
    .ok ((TOKEN_CONFIG_KEYS.map (fun k => (k, (config k).getD ""))) ++
      [("scope", SPOTIFY_SCOPE)])
  else
    .error missing_keys

/-! ### `refresh_spotify_token` (src/alarmtify.py lines 60-76)

The external `SpotifyOAuth` auth manager is embedded as an oracle: the
currently cached token dict, the cache contents observed after
`get_access_token` (the post-request cache), the expiry predicate, and
the dict `refresh_access_token` returns.  A token dict may lack the
`"access_token"` key, hence `Option String` for that field. -/

structure TokenInfo where
  access_token : Option String
  refresh_token : String
deriving DecidableEq, Repr

structure AuthManager where
  cached : Option TokenInfo
  postRequestCache : Option TokenInfo
  expired : TokenInfo → Bool
  refreshResult : String → TokenInfo

/-- Outcome of `refresh_spotify_token`, together with which remote flows
were exercised: `requested` records a `get_access_token` call and
`refreshed` a `refresh_access_token` call. -/
structure TokenResult where
  result : Except String String
  requested : Bool
  refreshed : Bool
deriving Repr

def tokenRetrievalFailed : String := "Token retrieval failed"

/-- `KeyError` from `token_info["access_token"]` on a dict lacking the
key (outside the guarded no-cache branch). -/
def keyErrorAccessToken : String := "KeyError: access_token"

def refresh_spotify_token (am : AuthManager) : TokenResult :=
  match am.cached with
  | none =>
      match am.postRequestCache with
      | none => ⟨.error tokenRetrievalFailed, true, false⟩
      | some ti =>
          match ti.access_token with
          | none => ⟨.error tokenRetrievalFailed, true, false⟩
          | some t => ⟨.ok t, true, false⟩
  | some ti =>
      if am.expired ti then
        match (am.refreshResult ti.refresh_token).access_token with
        | none => ⟨.error keyErrorAccessToken, false, true⟩
        | some t => ⟨.ok t, false, true⟩
      else
        match ti.access_token with
        | none => ⟨.error keyErrorAccessToken, false, false⟩
        | some t => ⟨.ok t, false, false⟩

/-! ### `select_device` (src/alarmtify.py lines 79-111)

The device list returned by `sp.devices()["devices"]` is an input; the
interactive `input()` stream is a list of the lines the user types.
`int(input(...))` reuses `pyIntStr`; a `ValueError` re-prompts. -/

structure Device where
  id : String
  name : String
deriving DecidableEq, Repr

inductive SelectResult
  | ok (d : Device)
  | noDevices
  | inputExhausted
deriving DecidableEq, Repr

/-- Python truthiness of `config.get("device_id")` / `"device_name"`. -/
def truthy (v : Option String) : Bool := !(falsy v)

/-- The numbered menu printed before prompting: `enumerate(devices, 1)`. -/
def deviceMenu (devices : List Device) : List (Nat × Device) :=
  devices.enumFrom 1

/-- The `while True` prompt loop: read a line, convert with `int`; on
`ValueError` or an out-of-range index re-prompt; `inputExhausted` models
the `EOFError` of an exhausted stdin. -/
def selectLoop (devices : List Device) : List String → SelectResult
  | [] => .inputExhausted
  | s :: rest =>
      match pyIntStr s with
      | none => selectLoop devices rest
      | some k =>
          let choice := k - 1
          if h : 0 ≤ choice ∧ choice < (devices.length : Int) then
            .ok (devices.get ⟨choice.toNat, by omega⟩)
          else
            selectLoop devices rest

def select_device (devices : List Device) (device_id device_name : Option String)
    (inputs : List String) : SelectResult :=
  match devices with
  | [] => .noDevices
  | [d] => .ok d
  | d0 :: d1 :: rest =>
      let devs := d0 :: d1 :: rest
      if truthy device_id then
        .ok ((devs.find? (fun d => some d.id = device_id)).getD d0)
      else if truthy device_name then
        .ok ((devs.find? (fun d => some d.name = device_name)).getD d0)
      else
        selectLoop devs inputs

/-! ### `start_playback` (src/alarmtify.py lines 146-158)

The remote call is an oracle `call : Nat → Option String` giving, for
each 0-based attempt index, `none` on success or `some e` for a
`SpotifyException` with message `e`.  The trace records the number of
remote calls issued and of 5-second backoff sleeps taken. -/

/-- `ValueError("Max retries reached, playback failed")`; the Python
implicit exception chaining attaches the in-flight exception of the
final attempt as its context (`cause`). -/
structure PlaybackError where
  message : String
  cause : String
deriving DecidableEq, Repr

structure PlaybackTrace where
  result : Except PlaybackError Unit
  calls : Nat
  waits : Nat
deriving Repr

def maxRetriesMsg : String := "Max retries reached, playback failed"

/-- One step of `for attempt in range(max_retries)` with `fuel`
iterations remaining; falling off the end of the loop returns `None`,
i.e. success with no attempt made. -/
def start_playbackAux (call : Nat → Option String) (total : Nat) :
    Nat → Nat → PlaybackTrace
  | _, 0 => ⟨.ok (), 0, 0⟩
  | attempt, fuel + 1 =>
      match call attempt with
      | none => ⟨.ok (), 1, 0⟩
      | some e =>
          if attempt < total - 1 then
            let t := start_playbackAux call total (attempt + 1) fuel
            ⟨t.result, t.calls + 1, t.waits + 1⟩
          else
            ⟨.error ⟨maxRetriesMsg, e⟩, 1, 0⟩

/-- `max_retries` is a Python `int`; `range(max_retries)` has
`max_retries.toNat` iterations (empty when non-positive). -/
def start_playback (call : Nat → Option String) (max_retries : Int) :
    PlaybackTrace :=
  start_playbackAux call max_retries.toNat 0 max_retries.toNat

/-! ### `main` run loop (src/alarmtify.py lines 161-189)

One cycle (config → auth → wait → select → playback) is abstracted to
its outcome; the `while True` loop is run for `fuel` iterations from a
stream of cycle outcomes.  `KeyboardInterrupt` breaks with a
user-stop log, any other exception breaks after logging the error, and
a successful cycle falls through to the next iteration. -/

inductive CycleOutcome
  | success
  | interrupt
  | fatal (e : String)
deriving DecidableEq, Repr

inductive LoopExit
  | userStop
  | fatalStop (e : String)
deriving DecidableEq, Repr

/-- Run the loop from cycle index `i` for `fuel` iterations; `none`
means the loop is still running after `fuel` cycles. -/
def runLoop (outcomes : Nat → CycleOutcome) : Nat → Nat → Option LoopExit
  | _, 0 => none
  | i, fuel + 1 =>
      match outcomes i with
      | .success => runLoop outcomes (i + 1) fuel
      | .interrupt => some .userStop
      | .fatal e => some (.fatalStop e)

/-- `main`: start at cycle 0. -/
def mainLoop (outcomes : Nat → CycleOutcome) (fuel : Nat) : Option LoopExit :=
  runLoop outcomes 0 fuel

/-! ## Theorems -/

/-- Claim C1: the wake instant computed by `wait_until_target_time` has
time-of-day equal to the target, falls on the date of `now` when the target
time-of-day is strictly later than that of `now`, and on the following date
otherwise (including exact equality); concretely, with
`now = 2024-01-01T10:00:00` (epoch second `19723*86400 + 36000`),
target 09:00 gives `2024-01-02T09:00:00` and target 11:00 gives
`2024-01-01T11:00:00`. -/
theorem next_occurrence_spec :
    (∀ target now : Nat, target < secPerDay →
       next_occurrence target now % secPerDay = target ∧
       next_occurrence target now / secPerDay =
         (if now % secPerDay < target then now / secPerDay
          else now / secPerDay + 1)) ∧
    next_occurrence (9 * 3600) (19723 * secPerDay + 10 * 3600) =
      19724 * secPerDay + 9 * 3600 ∧
    next_occurrence (11 * 3600) (19723 * secPerDay + 10 * 3600) =
      19723 * secPerDay + 11 * 3600 := by
  refine ⟨fun target now h => ?_, by decide, by decide⟩
  simp only [next_occurrence, secPerDay] at *
  constructor
  · split <;> omega
  · split <;> split <;> omega

/-- Witness for C1 at target 09:00, now 2024-01-01T10:00:00. -/
theorem next_occurrence_spec_witness :
    next_occurrence 32400 1704103200 % secPerDay = 32400 ∧
    next_occurrence 32400 1704103200 / secPerDay =
      (if 1704103200 % secPerDay < 32400 then 1704103200 / secPerDay
       else 1704103200 / secPerDay + 1) :=
  next_occurrence_spec.1 32400 1704103200 (by decide)

/-- Claim C7: a singleton device list is returned immediately, whatever
the configured id/name and whatever the input stream; an empty device
list fails with `NoDevicesAvailable`. -/
theorem select_device_singleton_empty :
    (∀ (d : Device) (device_id device_name : Option String)
       (inputs : List String),
       select_device [d] device_id device_name inputs = .ok d) ∧
    (∀ (device_id device_name : Option String) (inputs : List String),
       select_device [] device_id device_name inputs = .noDevices) :=
  ⟨fun _ _ _ _ => rfl, fun _ _ _ => rfl⟩

/-- Witness for C7 on concrete devices and a nonempty input stream. -/
theorem select_device_singleton_empty_witness :
    select_device [⟨"idA", "A"⟩] (some "other") (some "B") ["3"] =
      .ok ⟨"idA", "A"⟩ ∧
    select_device [] (some "other") (some "B") ["3"] = .noDevices :=
  ⟨select_device_singleton_empty.1 ⟨"idA", "A"⟩ (some "other") (some "B") ["3"],
   select_device_singleton_empty.2 (some "other") (some "B") ["3"]⟩

/-- Claim C6: with more than one device, a configured device id (or,
with no id configured, a configured device name) that matches no device
exactly makes selection fall back to the first device of the list. -/
theorem select_device_fallback (d0 d1 : Device) (rest : List Device)
    (device_id device_name : Option String) (inputs : List String) :
    (truthy device_id = true →
       (∀ d ∈ d0 :: d1 :: rest, some d.id ≠ device_id) →
       select_device (d0 :: d1 :: rest) device_id device_name inputs = .ok d0) ∧
    (truthy device_id = false → truthy device_name = true →
       (∀ d ∈ d0 :: d1 :: rest, some d.name ≠ device_name) →
       select_device (d0 :: d1 :: rest) device_id device_name inputs = .ok d0) := by
  constructor
  · intro hid hnone
    have hfind : (d0 :: d1 :: rest).find? (fun d => some d.id = device_id) = none := by
      rw [List.find?_eq_none]
      intro d hd
      simpa using hnone d hd
    simp [select_device, hid, hfind]
  · intro hid hname hnone
    have hfind : (d0 :: d1 :: rest).find? (fun d => some d.name = device_name) = none := by
      rw [List.find?_eq_none]
      intro d hd
      simpa using hnone d hd
    simp [select_device, hid, hname, hfind]

/-- Witness for C6: three devices, an unmatched configured id falls back
to the first device, as does an unmatched configured name. -/
theorem select_device_fallback_witness :
    select_device [⟨"idA", "A"⟩, ⟨"idB", "B"⟩, ⟨"idC", "C"⟩]
      (some "zz") none [] = .ok ⟨"idA", "A"⟩ ∧
    select_device [⟨"idA", "A"⟩, ⟨"idB", "B"⟩, ⟨"idC", "C"⟩]
      none (some "zz") [] = .ok ⟨"idA", "A"⟩ :=
  ⟨(select_device_fallback ⟨"idA", "A"⟩ ⟨"idB", "B"⟩ [⟨"idC", "C"⟩]
      (some "zz") none []).1 (by decide) (by decide),
   (select_device_fallback ⟨"idA", "A"⟩ ⟨"idB", "B"⟩ [⟨"idC", "C"⟩]
      none (some "zz") []).2 (by decide) (by decide) (by decide)⟩

/-- Claim C10: a non-positive `max_retries` makes `start_playback`
return successfully with no remote call and no backoff wait: the
`for attempt in range(max_retries)` body never runs. -/
theorem start_playback_nonpositive (call : Nat → Option String)
    (max_retries : Int) (h : max_retries ≤ 0) :
    start_playback call max_retries = ⟨.ok (), 0, 0⟩ := by
  unfold start_playback
  rw [Int.toNat_of_nonpos h]
  rfl

/-- Witness for C10 at `max_retries = -1` with an always-failing call. -/
theorem start_playback_nonpositive_witness :
    start_playback (fun _ => some "boom") (-1) = ⟨.ok (), 0, 0⟩ :=
  start_playback_nonpositive (fun _ => some "boom") (-1) (by decide)

/-- Claim C2: with `max_retries = 3`, a call failing on the first
`k < 3` attempts and succeeding on attempt `k+1` succeeds after exactly
`k` backoff waits and `k+1` remote calls; a call failing on all three
attempts yields the max-retries error chained to the last underlying
error, after exactly 3 remote calls and 2 waits. -/
theorem start_playback_retry_spec (call : Nat → Option String) :
    (∀ k : Nat, k < 3 → (∀ i, i < k → (call i).isSome) → call k = none →
       start_playback call 3 = ⟨.ok (), k + 1, k⟩) ∧
    (∀ e0 e1 e2 : String, call 0 = some e0 → call 1 = some e1 →
       call 2 = some e2 →
       start_playback call 3 = ⟨.error ⟨maxRetriesMsg, e2⟩, 3, 2⟩) := by
  constructor
  · intro k hk hfail hsucc
    interval_cases k
    · simp [start_playback, start_playbackAux, hsucc]
    · obtain ⟨e0, h0⟩ := Option.isSome_iff_exists.mp (hfail 0 (by omega))
      simp [start_playback, start_playbackAux, h0, hsucc]
    · obtain ⟨e0, h0⟩ := Option.isSome_iff_exists.mp (hfail 0 (by omega))
      obtain ⟨e1, h1⟩ := Option.isSome_iff_exists.mp (hfail 1 (by omega))
      simp [start_playback, start_playbackAux, h0, h1, hsucc]
  · intro e0 e1 e2 h0 h1 h2
    simp [start_playback, start_playbackAux, h0, h1, h2]

/-- Witness for C2: a call failing once then succeeding, and a call
failing on every attempt. -/
theorem start_playback_retry_spec_witness :
    start_playback (fun i => if i = 0 then some "e0" else none) 3 =
      ⟨.ok (), 2, 1⟩ ∧
    start_playback (fun i => some (toString i)) 3 =
      ⟨.error ⟨maxRetriesMsg, "2"⟩, 3, 2⟩ :=
  ⟨(start_playback_retry_spec (fun i => if i = 0 then some "e0" else none)).1
     1 (by decide) (fun i hi => by obtain rfl : i = 0 := Nat.lt_one_iff.mp hi; rfl) rfl,
   (start_playback_retry_spec (fun i => some (toString i))).2
     "0" "1" "2" rfl rfl rfl⟩

/-- Claim C4: if any required credential key is absent or empty, config
validation fails with the error listing exactly the missing keys (every
one of them); `get_token_config` only reads the mapping, so the failure
precedes any network call. -/
theorem get_token_config_missing (config : String → Option String)
    (h : ∃ k ∈ TOKEN_CONFIG_KEYS, falsy (config k)) :
    ∃ ks, get_token_config config = .error ks ∧
      ∀ k, k ∈ ks ↔ k ∈ TOKEN_CONFIG_KEYS ∧ falsy (config k) := by
  refine ⟨TOKEN_CONFIG_KEYS.filter (fun k => falsy (config k)), ?_, ?_⟩
  · obtain ⟨k, hk, hf⟩ := h
    have hmem : k ∈ TOKEN_CONFIG_KEYS.filter (fun k => falsy (config k)) :=
      List.mem_filter.mpr ⟨hk, hf⟩
    have hne : TOKEN_CONFIG_KEYS.filter (fun k => falsy (config k)) ≠ [] :=
      List.ne_nil_of_mem hmem
    unfold get_token_config
    rw [if_neg]
    simpa [List.isEmpty_iff] using hne
  · intro k
    simp [List.mem_filter]

/-- Witness for C4: a config supplying only `username` and `client_id`
fails naming exactly `client_secret` and `redirect_uri`. -/
theorem get_token_config_missing_witness :
    (∃ ks, get_token_config
        (fun k => if k = "username" then some "u"
                  else if k = "client_id" then some "c" else none) = .error ks ∧
      ∀ k, k ∈ ks ↔ k ∈ TOKEN_CONFIG_KEYS ∧
        falsy (if k = "username" then some "u"
               else if k = "client_id" then some "c" else none)) ∧
    get_token_config
        (fun k => if k = "username" then some "u"
                  else if k = "client_id" then some "c" else none) =
      .error ["client_secret", "redirect_uri"] :=
  ⟨get_token_config_missing _ ⟨"client_secret", by decide, by decide⟩, rfl⟩

/-- Whether an observed cache state lacks a usable access token: no dict
at all, or a dict without the `"access_token"` key. -/
def lacksAccess : Option TokenInfo → Bool
  | none => true
  | some ti => ti.access_token.isNone

/-- Claim C5: token resolution decision table.  With no cached token, a
new token is requested (never refreshed) and the call fails with
`TokenRetrievalFailed` exactly when the post-request cache still lacks
an access token, otherwise returning that token; a cached unexpired
token is returned as-is with no request and no refresh; a cached expired
token is refreshed via its refresh token and the refreshed access token
is returned. -/
theorem refresh_spotify_token_spec (am : AuthManager) :
    (am.cached = none →
       (refresh_spotify_token am).requested = true ∧
       (refresh_spotify_token am).refreshed = false ∧
       ((refresh_spotify_token am).result = .error tokenRetrievalFailed ↔
         lacksAccess am.postRequestCache = true) ∧
       (∀ ti t, am.postRequestCache = some ti → ti.access_token = some t →
          (refresh_spotify_token am).result = .ok t)) ∧
    (∀ ti t, am.cached = some ti → am.expired ti = false →
       ti.access_token = some t →
       refresh_spotify_token am = ⟨.ok t, false, false⟩) ∧
    (∀ ti t, am.cached = some ti → am.expired ti = true →
       (am.refreshResult ti.refresh_token).access_token = some t →
       refresh_spotify_token am = ⟨.ok t, false, true⟩) := by
  refine ⟨fun hc => ?_, fun ti t hc hexp hacc => ?_, fun ti t hc hexp hacc => ?_⟩
  · rcases hpost : am.postRequestCache with _ | ti
    · simp [refresh_spotify_token, hc, hpost, lacksAccess]
    · rcases hacc : ti.access_token with _ | t
      · refine ⟨by simp [refresh_spotify_token, hc, hpost, hacc],
          by simp [refresh_spotify_token, hc, hpost, hacc],
          by simp [refresh_spotify_token, hc, hpost, hacc, lacksAccess], ?_⟩
        rintro ti' t' h' ht'
        injection h' with h''
        subst h''
        rw [hacc] at ht'
        cases ht'
      · refine ⟨by simp [refresh_spotify_token, hc, hpost, hacc],
          by simp [refresh_spotify_token, hc, hpost, hacc],
          by simp [refresh_spotify_token, hc, hpost, hacc, lacksAccess], ?_⟩
        rintro ti' t' h' ht'
        injection h' with h''
        subst h''
        rw [hacc] at ht'
        injection ht' with h3
        subst h3
        simp [refresh_spotify_token, hc, hpost, hacc]
  · simp [refresh_spotify_token, hc, hexp, hacc]
  · simp [refresh_spotify_token, hc, hexp, hacc]

/-- Witness for C5: a cold cache whose post-request state holds a token
resolves to that token, having issued a request. -/
theorem refresh_spotify_token_spec_witness :
    (refresh_spotify_token
        ⟨none, some ⟨some "tok", "r"⟩, fun _ => false, fun _ => ⟨none, ""⟩⟩).requested
      = true ∧
    (refresh_spotify_token
        ⟨none, some ⟨some "tok", "r"⟩, fun _ => false, fun _ => ⟨none, ""⟩⟩).result
      = .ok "tok" :=
  ⟨((refresh_spotify_token_spec
      ⟨none, some ⟨some "tok", "r"⟩, fun _ => false, fun _ => ⟨none, ""⟩⟩).1 rfl).1,
   ((refresh_spotify_token_spec
      ⟨none, some ⟨some "tok", "r"⟩, fun _ => false, fun _ => ⟨none, ""⟩⟩).1 rfl).2.2.2
     ⟨some "tok", "r"⟩ "tok" rfl rfl⟩

/-- A typed line the prompt loop accepts over `n` devices: `int()`
succeeds with a value `k`, `1 ≤ k ≤ n`. -/
def validEntry (n : Nat) (s : String) : Bool :=
  match pyIntStr s with
  | none => false
  | some k => decide (1 ≤ k ∧ k ≤ (n : Int))

theorem selectLoop_invalid (devices : List Device) (s : String)
    (rest : List String) (h : validEntry devices.length s = false) :
    selectLoop devices (s :: rest) = selectLoop devices rest := by
  cases hp : pyIntStr s with
  | none => simp only [selectLoop, hp]
  | some k =>
      have hneg : ¬(0 ≤ k - 1 ∧ k - 1 < (devices.length : Int)) := by
        simp only [validEntry, hp, decide_eq_false_iff_not] at h
        omega
      simp only [selectLoop, hp]
      rw [dif_neg hneg]

theorem selectLoop_first_valid (devices : List Device) :
    ∀ (pre : List String) (s : String) (post : List String) (k : Int),
      (∀ t ∈ pre, validEntry devices.length t = false) →
      pyIntStr s = some k → 1 ≤ k → k ≤ (devices.length : Int) →
      ∀ hb : (k - 1).toNat < devices.length,
      selectLoop devices (pre ++ s :: post) =
        .ok (devices.get ⟨(k - 1).toNat, hb⟩) := by
  intro pre
  induction pre with
  | nil =>
      intro s post k _ hk h1 h2 hb
      rw [List.nil_append]
      simp only [selectLoop, hk]
      rw [dif_pos ⟨by omega, by omega⟩]
  | cons t pre ih =>
      intro s post k hpre hk h1 h2 hb
      rw [List.cons_append,
        selectLoop_invalid _ _ _ (hpre t (List.mem_cons_self t pre))]
      exact ih s post k (fun u hu => hpre u (List.mem_cons_of_mem t hu)) hk h1 h2 hb

theorem enumFrom_map_snd_eq (l : List Device) :
    ∀ n : Nat, (l.enumFrom n).map Prod.snd = l := by
  induction l with
  | nil => intro n; rfl
  | cons a as ih => intro n; simp [List.enumFrom, ih]

theorem enumFrom_map_fst_eq (l : List Device) :
    ∀ n : Nat, (l.enumFrom n).map Prod.fst = List.range' n l.length := by
  induction l with
  | nil => intro n; rfl
  | cons a as ih => intro n; simp [List.enumFrom, List.range', ih]

/-- Claim C8: with more than one device and no configured id or name,
the menu numbers the devices 1..n in list order, and the prompt loop
consumes every invalid line (non-numeric or out of range) and returns
the `k`-th device for the first line holding a valid integer `k` with
`1 ≤ k ≤ n`. -/
theorem select_device_interactive_spec (d0 d1 : Device) (rest : List Device)
    (pre : List String) (s : String) (post : List String) (k : Int)
    (hpre : ∀ t ∈ pre, validEntry (d0 :: d1 :: rest).length t = false)
    (hk : pyIntStr s = some k) (h1 : 1 ≤ k)
    (h2 : k ≤ ((d0 :: d1 :: rest).length : Int))
    (hb : (k - 1).toNat < (d0 :: d1 :: rest).length) :
    (deviceMenu (d0 :: d1 :: rest)).map Prod.fst =
      List.range' 1 (d0 :: d1 :: rest).length ∧
    (deviceMenu (d0 :: d1 :: rest)).map Prod.snd = d0 :: d1 :: rest ∧
    select_device (d0 :: d1 :: rest) none none (pre ++ s :: post) =
      .ok ((d0 :: d1 :: rest).get ⟨(k - 1).toNat, hb⟩) := by
  refine ⟨enumFrom_map_fst_eq _ 1, enumFrom_map_snd_eq _ 1, ?_⟩
  show selectLoop (d0 :: d1 :: rest) (pre ++ s :: post) = _
  exact selectLoop_first_valid (d0 :: d1 :: rest) pre s post k hpre hk h1 h2 hb

/-- Witness for C8: three devices; the out-of-range line "9" re-prompts
and the line "2" then selects the second device. -/
theorem select_device_interactive_spec_witness :
    select_device [⟨"idA", "A"⟩, ⟨"idB", "B"⟩, ⟨"idC", "C"⟩] none none
      ["9", "2"] = .ok ⟨"idB", "B"⟩ :=
  (select_device_interactive_spec ⟨"idA", "A"⟩ ⟨"idB", "B"⟩ [⟨"idC", "C"⟩]
    ["9"] "2" [] 2
    (by intro t ht; simp at ht; subst ht; rfl)
    rfl (by decide) (by decide) (by decide)).2.2

/-- Running the loop across `j` consecutive successful cycles leaves it
running, positioned at cycle `i + j`. -/
theorem runLoop_success_span (outcomes : Nat → CycleOutcome) :
    ∀ j i, (∀ t, i ≤ t → t < i + j → outcomes t = .success) →
      runLoop outcomes i j = none ∧
      ∀ fuel, runLoop outcomes i (j + fuel) = runLoop outcomes (i + j) fuel := by
  intro j
  induction j with
  | zero =>
      intro i _
      exact ⟨rfl, fun fuel => by simp⟩
  | succ j ih =>
      intro i h
      have h0 : outcomes i = .success := h i (Nat.le_refl i) (by omega)
      obtain ⟨ih1, ih2⟩ := ih (i + 1) (fun t ht1 ht2 => h t (by omega) (by omega))
      constructor
      · show runLoop outcomes i (j + 1) = none
        simp [runLoop, h0, ih1]
      · intro fuel
        have e1 : j + 1 + fuel = (j + fuel) + 1 := by omega
        rw [e1]
        show runLoop outcomes i ((j + fuel) + 1) = _
        simp only [runLoop, h0]
        rw [ih2 fuel]
        congr 1
        omega

/-- Counterexample to claim C9: no configuration flag controls the
post-`Done` behavior — after a successful first cycle the loop is still
running unconditionally, and it proceeds into the next cycle (here
hitting the fatal error of that cycle) rather than terminating. -/
theorem mainLoop_always_continues_after_done :
    mainLoop (fun i => if i = 0 then .success else .fatal "boom") 1 = none ∧
    mainLoop (fun i => if i = 0 then .success else .fatal "boom") 2 =
      some (.fatalStop "boom") :=
  ⟨rfl, rfl⟩

/-- Claim C9 as amended: after a successful cycle the loop always
returns to LoadConfig for another cycle (continuous, with no
configuration flag); the first fatal error terminates the loop after
logging it, and a user interrupt terminates it immediately without
being treated as fatal. -/
theorem mainLoop_policy (outcomes : Nat → CycleOutcome) (j : Nat)
    (hsucc : ∀ i, i < j → outcomes i = .success) :
    mainLoop outcomes j = none ∧
    (outcomes j = .interrupt → mainLoop outcomes (j + 1) = some .userStop) ∧
    (∀ e, outcomes j = .fatal e → mainLoop outcomes (j + 1) = some (.fatalStop e)) := by
  obtain ⟨h1, h2⟩ :=
    runLoop_success_span outcomes j 0 (fun t _ ht2 => hsucc t (by omega))
  refine ⟨h1, ?_, ?_⟩
  · intro hint
    show runLoop outcomes 0 (j + 1) = _
    rw [h2 1]
    simp [runLoop, Nat.zero_add, hint]
  · intro e hfat
    show runLoop outcomes 0 (j + 1) = _
    rw [h2 1]
    simp [runLoop, Nat.zero_add, hfat]

/-- Witness for C9's amended theorem: an immediately interrupted run
stops as a user stop; a run whose first cycle fails fatally stops
fatally. -/
theorem mainLoop_policy_witness :
    mainLoop (fun _ => .interrupt) 1 = some .userStop ∧
    mainLoop (fun _ => .fatal "e") 1 = some (.fatalStop "e") :=
  ⟨(mainLoop_policy (fun _ => .interrupt) 0 (fun i hi => absurd hi (by omega))).2.1
     rfl,
   (mainLoop_policy (fun _ => .fatal "e") 0 (fun i hi => absurd hi (by omega))).2.2
     "e" rfl⟩

theorem mapM_some_length {α β : Type} (f : α → Option β) :
    ∀ (l : List α) (l' : List β), l.mapM f = some l' → l'.length = l.length := by
  intro l
  induction l with
  | nil =>
      intro l' hl
      rw [List.mapM_nil] at hl
      injection hl with h
      rw [← h]
      rfl
  | cons a as ih =>
      intro l' hl
      rw [List.mapM_cons] at hl
      cases hf : f a with
      | none => rw [hf] at hl; cases hl
      | some b =>
          rw [hf] at hl
          cases hm : as.mapM f with
          | none => rw [hm] at hl; cases hl
          | some bs =>
              rw [hm] at hl
              injection hl with h
              rw [← h]
              simp [ih bs hm]

theorem mapM_none_of_mem {α β : Type} (f : α → Option β) :
    ∀ (l : List α) (a : α), a ∈ l → f a = none → l.mapM f = none := by
  intro l
  induction l with
  | nil => intro a ha; cases ha
  | cons b bs ih =>
      intro a ha hf
      rw [List.mapM_cons]
      rcases List.mem_cons.mp ha with rfl | hmem
      · rw [hf]; rfl
      · cases hb : f b with
        | none => rfl
        | some v => rw [ih a hmem hf]; rfl

theorem pySplit_ne_nil (sep : Char) : ∀ l : List Char, pySplit sep l ≠ [] := by
  intro l
  induction l with
  | nil => simp [pySplit]
  | cons c rest ih =>
      rw [pySplit]
      split
      · simp
      · rcases hs : pySplit sep rest with _ | ⟨h, t⟩
        · exact absurd hs ih
        · simp [hs]

theorem pySplit_length (sep : Char) :
    ∀ l : List Char, (pySplit sep l).length = l.count sep + 1 := by
  intro l
  induction l with
  | nil => simp [pySplit]
  | cons c rest ih =>
      rw [pySplit]
      split
      · rename_i hc
        subst hc
        simp [List.count_cons, ih]
      · rename_i hc
        rcases hs : pySplit sep rest with _ | ⟨h, t⟩
        · exact absurd hs (pySplit_ne_nil sep rest)
        · have := ih
          rw [hs] at this
          simp at this
          simp [List.count_cons, hc, this]

/-- Counterexample to claim C3 as stated: `" 9:5"` is not strict
two-digit `"HH:MM"` text (leading whitespace, single-digit components),
yet parsing succeeds with `(9, 5)`, because Python `int()` strips
whitespace and accepts any number of digits. -/
theorem parse_target_time_accepts_nonstrict :
    parse_target_time " 9:5".toList = some (9, 5) := rfl

/-- Claim C3 as amended: parsing accepts exactly the strings that split
on a colon into two components that Python `int()` accepts (surrounding
whitespace, an optional sign and any digit count are allowed, so
acceptance is broader than strict `"HH:MM"`), with hour in `[0,24)` and
minute in `[0,60)`.  In particular every strict `"HH:MM"` string in
range round-trips, any value produced satisfies the ranges, a string
whose colon count differs from 1 fails, and a string with a component
`int()` rejects fails — all with `InvalidTimeFormat`. -/
theorem parse_target_time_spec :
    (∀ h, h < 24 → ∀ m, m < 60 →
       parse_target_time (toHHMM h m) = some (h, m)) ∧
    (∀ (s : List Char) (h m : Nat),
       parse_target_time s = some (h, m) → h < 24 ∧ m < 60) ∧
    (∀ s : List Char, s.count ':' ≠ 1 → parse_target_time s = none) ∧
    (∀ s : List Char, (∃ p ∈ pySplit ':' s, pyInt p = none) →
       parse_target_time s = none) := by
  refine ⟨by decide, ?_, ?_, ?_⟩
  · intro s h m hp
    rcases hm : (pySplit ':' s).mapM pyInt with _ | l
    · simp only [parse_target_time, hm] at hp
      exact Option.noConfusion hp
    · rcases l with _ | ⟨a, _ | ⟨b, _ | ⟨c, t⟩⟩⟩
      · simp only [parse_target_time, hm] at hp
        exact Option.noConfusion hp
      · simp only [parse_target_time, hm] at hp
        exact Option.noConfusion hp
      · simp only [parse_target_time, hm] at hp
        split at hp
        · rename_i hcond
          injection hp with h'
          have h1 : a.toNat = h := congrArg Prod.fst h'
          have h2 : b.toNat = m := congrArg Prod.snd h'
          omega
        · exact Option.noConfusion hp
      · simp only [parse_target_time, hm] at hp
        exact Option.noConfusion hp
  · intro s hc
    have hlen : (pySplit ':' s).length = s.count ':' + 1 := pySplit_length ':' s
    rcases hm : (pySplit ':' s).mapM pyInt with _ | l
    · simp only [parse_target_time, hm]
    · have hl : l.length = s.count ':' + 1 := by
        rw [mapM_some_length pyInt _ _ hm, hlen]
      rcases l with _ | ⟨a, _ | ⟨b, _ | ⟨c, t⟩⟩⟩
      · simp only [parse_target_time, hm]
      · simp only [parse_target_time, hm]
      · exfalso
        simp at hl
        omega
      · simp only [parse_target_time, hm]
  · rintro s ⟨p, hmem, hnone⟩
    have hm : (pySplit ':' s).mapM pyInt = none :=
      mapM_none_of_mem pyInt _ p hmem hnone
    simp only [parse_target_time, hm]

/-- Witness for C3's amended theorem: `"09:30"` round-trips, `"1:2:3"`
(two separators) fails, `"ab:cd"` (non-numeric components) fails. -/
theorem parse_target_time_spec_witness :
    parse_target_time (toHHMM 9 30) = some (9, 30) ∧
    parse_target_time "1:2:3".toList = none ∧
    parse_target_time "ab:cd".toList = none :=
  ⟨parse_target_time_spec.1 9 (by decide) 30 (by decide),
   parse_target_time_spec.2.2.1 "1:2:3".toList (by decide),
   parse_target_time_spec.2.2.2 "ab:cd".toList
     ⟨"ab".toList, by decide, by decide⟩⟩

end Alarmtify
